import Mathlib

/-!
Verification of the langflow-api relay (src/main.py and the
src/langflow-api/main.py variant) against its specification.

The embedding models the parsed JSON values the program manipulates, the
Python dictionary/list/string operations the source performs on them
(including their truthiness rules and the exceptions they raise), the
retry loop of call_langflow_api, the response extraction, and the two
POST /query handlers.  Upstream HTTP traffic is modelled as a function
from attempt index to the observable outcome of that attempt.
-/

set_option autoImplicit false

/-- A parsed JSON value, as produced by response.json().  Numbers are
modelled as integers; no claim involves fractional numeric values. -/
inductive Json where
  | null
  | bool (b : Bool)
  | num (n : Int)
  | str (s : String)
  | arr (elems : List Json)
  | obj (fields : List (String × Json))

/-- Python type name of a value, as it appears in exception messages. -/
def typeName : Json → String
  | .null => "NoneType"
  | .bool _ => "bool"
  | .num _ => "int"
  | .str _ => "str"
  | .arr _ => "list"
  | .obj _ => "dict"

/-- Python truthiness of a JSON value (used by the `if`/`and` chain of the
response extraction and by `if not application_token`). -/
def truthy : Json → Bool
  | .null => false
  | .bool b => b
  | .num n => n != 0
  | .str s => s != ""
  | .arr elems => !elems.isEmpty
  | .obj fields => !fields.isEmpty

/-- A single quote character, for building Python exception texts. -/
def sqc : Char := Char.ofNat 39

/-- Wrap a string in single quotes the way Python exception messages do. -/
def pyQuote (s : String) : String :=
  String.singleton sqc ++ s ++ String.singleton sqc

/-- Message of the AttributeError raised by `v.get(...)` on a non-dict. -/
def noAttrGet (tn : String) : String :=
  pyQuote tn ++ " object has no attribute " ++ pyQuote "get"

/-- `v.get(k)` in Python: on a dict, the stored value or None; on anything
else, AttributeError.  The error carries str(e) of the exception. -/
def pyGet (v : Json) (k : String) : Except String Json :=
  match v with
  | .obj fields => .ok ((fields.lookup k).getD .null)
  | _ => .error (noAttrGet (typeName v))

/-- `len(v)` in Python: defined for list, dict and str, TypeError otherwise. -/
def pyLen : Json → Except String Nat
  | .arr elems => .ok elems.length
  | .obj fields => .ok fields.length
  | .str s => .ok s.length
  | v => .error ("object of type " ++ pyQuote (typeName v) ++ " has no len()")

/-- `v[0]` in Python: head of a list (IndexError when empty), first
character of a string, KeyError on a dict (0 is not a string key),
TypeError otherwise. -/
def pyIndex0 : Json → Except String Json
  | .arr [] => .error "list index out of range"
  | .arr (x :: _) => .ok x
  | .str s =>
    match s.data with
    | [] => .error "string index out of range"
    | c :: _ => .ok (.str (String.singleton c))
  | .obj _ => .error "0"
  | v => .error (pyQuote (typeName v) ++ " object is not subscriptable")

/-- Character-level prefix test, modelling Python str.startswith. -/
def listIsPrefix : List Char → List Char → Bool
  | [], _ => true
  | _ :: _, [] => false
  | a :: as, b :: bs => if a = b then listIsPrefix as bs else false

/-- `s.startswith(p)` in Python. -/
def pyStartswith (s p : String) : Bool := listIsPrefix p.data s.data

/-- Substring occurrence, modelling Python `needle in haystack`. -/
def strIn (needle : List Char) : List Char → Bool
  | [] => listIsPrefix needle []
  | c :: rest => if listIsPrefix needle (c :: rest) then true else strIn needle rest

/-- `sub in s` for strings, as in line 123 of src/main.py. -/
def strContains (s sub : String) : Bool := strIn sub.data s.data

/-- Python whitespace characters recognised by str.strip(). -/
def isPyWhitespace (c : Char) : Bool :=
  c = Char.ofNat 32 || c = Char.ofNat 9 || c = Char.ofNat 10 ||
  c = Char.ofNat 13 || c = Char.ofNat 11 || c = Char.ofNat 12

/-- `s.strip()` in Python: remove leading and trailing whitespace. -/
def pyStrip (s : String) : String :=
  String.mk (((s.data.dropWhile isPyWhitespace).reverse.dropWhile isPyWhitespace).reverse)

/-- `s[:15]`: the first fifteen characters, as logged on line 82. -/
def pySlice15 (s : String) : String := String.mk (s.data.take 15)

/-- A double quote character as a string. -/
def dqs : String := "\""

/-- Lowercase hex digit. -/
def hexDigit (n : Nat) : Char :=
  if n < 10 then Char.ofNat (48 + n) else Char.ofNat (87 + n)

/-- Four lowercase hex digits, for json.dumps \u escapes. -/
def hex4 (n : Nat) : String :=
  String.mk [hexDigit (n / 4096 % 16), hexDigit (n / 256 % 16),
             hexDigit (n / 16 % 16), hexDigit (n % 16)]

/-- Two lowercase hex digits, for Python repr \x escapes. -/
def hex2 (n : Nat) : String :=
  String.mk [hexDigit (n / 16 % 16), hexDigit (n % 16)]

/-- How json.dumps (default ensure_ascii) renders one character inside a
string literal. -/
def jsonEscapeChar (c : Char) : String :=
  if c = Char.ofNat 34 then "\\" ++ dqs
  else if c = Char.ofNat 92 then "\\\\"
  else if c = Char.ofNat 10 then "\\n"
  else if c = Char.ofNat 13 then "\\r"
  else if c = Char.ofNat 9 then "\\t"
  else if c = Char.ofNat 8 then "\\b"
  else if c = Char.ofNat 12 then "\\f"
  else if c.toNat < 32 then "\\u" ++ hex4 c.toNat
  else if c.toNat < 127 then String.singleton c
  else if c.toNat < 65536 then "\\u" ++ hex4 c.toNat
  else
    "\\u" ++ hex4 (55296 + (c.toNat - 65536) / 1024) ++
    "\\u" ++ hex4 (56320 + (c.toNat - 65536) % 1024)

/-- json.dumps rendering of a string. -/
def jsonQuote (s : String) : String :=
  dqs ++ String.join (s.data.map jsonEscapeChar) ++ dqs

mutual

/-- `json.dumps(v)` with default separators, as used on line 137. -/
def jsonDumps : Json → String
  | .null => "null"
  | .bool true => "true"
  | .bool false => "false"
  | .num n => toString n
  | .str s => jsonQuote s
  | .arr elems => "[" ++ jsonDumpsList elems ++ "]"
  | .obj fields => "\x7b" ++ jsonDumpsFields fields ++ "\x7d"

def jsonDumpsList : List Json → String
  | [] => ""
  | [v] => jsonDumps v
  | v :: w :: rest => jsonDumps v ++ ", " ++ jsonDumpsList (w :: rest)

def jsonDumpsFields : List (String × Json) → String
  | [] => ""
  | [(k, v)] => jsonQuote k ++ ": " ++ jsonDumps v
  | (k, v) :: p :: rest => jsonQuote k ++ ": " ++ jsonDumps v ++ ", " ++ jsonDumpsFields (p :: rest)

end

/-- How Python repr renders one character of a string, given the chosen
quote character. -/
def pyReprEscape (q : Char) (c : Char) : String :=
  if c = Char.ofNat 92 then "\\\\"
  else if c = q then "\\" ++ String.singleton q
  else if c = Char.ofNat 10 then "\\n"
  else if c = Char.ofNat 13 then "\\r"
  else if c = Char.ofNat 9 then "\\t"
  else if c.toNat < 32 || c.toNat = 127 then "\\x" ++ hex2 c.toNat
  else String.singleton c

/-- Python repr of a string: single quotes by default, double quotes when
the text contains a single quote but no double quote. -/
def pyReprStr (s : String) : String :=
  let q := if s.data.contains sqc && !(s.data.contains (Char.ofNat 34)) then Char.ofNat 34 else sqc
  String.singleton q ++ String.join (s.data.map (pyReprEscape q)) ++ String.singleton q

mutual

/-- Python repr of a parsed JSON value. -/
def pyRepr : Json → String
  | .null => "None"
  | .bool true => "True"
  | .bool false => "False"
  | .num n => toString n
  | .str s => pyReprStr s
  | .arr elems => "[" ++ pyReprList elems ++ "]"
  | .obj fields => "\x7b" ++ pyReprFields fields ++ "\x7d"

def pyReprList : List Json → String
  | [] => ""
  | [v] => pyRepr v
  | v :: w :: rest => pyRepr v ++ ", " ++ pyReprList (w :: rest)

def pyReprFields : List (String × Json) → String
  | [] => ""
  | [(k, v)] => pyReprStr k ++ ": " ++ pyRepr v
  | (k, v) :: p :: rest => pyReprStr k ++ ": " ++ pyRepr v ++ ", " ++ pyReprFields (p :: rest)

end

/-- `str(v)` in Python: identity on strings, repr-like otherwise (as
applied to error_detail["detail"] on line 122). -/
def pyStr : Json → String
  | .str s => s
  | v => pyRepr v

/-- Outcome of evaluating the extraction block (src/main.py lines 150-163)
on a parsed 200-response body: the extracted terminal value, the
fallback branch of line 163, or a raised Python exception (carrying
str(e)). -/
inductive ExtractOutcome where
  | extracted (v : Json)
  | fallbackRaw
  | pyError (msg : String)

/-- The guarded chain of lines 151-157 followed by the indexing of line
159, with Python short-circuit `and`: a falsy step selects the else
branch of line 161, a step of the wrong shape raises. -/
def extractMessage (response_data : Json) : ExtractOutcome :=
  match pyGet response_data "outputs" with
  | .error e => .pyError e
  | .ok outs =>
    match truthy outs with
    | false => .fallbackRaw
    | true =>
      match pyLen outs with
      | .error e => .pyError e
      | .ok n =>
        if n = 0 then .fallbackRaw
        else
          match pyIndex0 outs with
          | .error e => .pyError e
          | .ok elem0 =>
            match pyGet elem0 "outputs" with
            | .error e => .pyError e
            | .ok outs2 =>
              match truthy outs2 with
              | false => .fallbackRaw
              | true =>
                match pyLen outs2 with
                | .error e => .pyError e
                | .ok n2 =>
                  if n2 = 0 then .fallbackRaw
                  else
                    match pyIndex0 outs2 with
                    | .error e => .pyError e
                    | .ok elem1 =>
                      match pyGet elem1 "results" with
                      | .error e => .pyError e
                      | .ok results =>
                        match truthy results with
                        | false => .fallbackRaw
                        | true =>
                          match pyGet results "message" with
                          | .error e => .pyError e
                          | .ok message =>
                            match truthy message with
                            | false => .fallbackRaw
                            | true =>
                              match pyGet message "text" with
                              | .error e => .pyError e
                              | .ok text =>
                                match truthy text with
                                | false => .fallbackRaw
                                | true => .extracted text

/-- What call_langflow_api produces: a returned JSON dict, or a raised
HTTPException with a status code and a detail string. -/
inductive CallResult where
  | returned (body : Json)
  | httpError (status : Nat) (detail : String)

/-- The Unwrapper composed with the surrounding try: lines 150-163 plus
the `except Exception` handler of lines 193-198 that converts a raised
extraction exception into HTTPException(500, ...). -/
def unwrapResult (response_data : Json) : CallResult :=
  match extractMessage response_data with
  | .extracted v => .returned (.obj [("status", .str "success"), ("data", v)])
  | .fallbackRaw => .returned (.obj [("status", .str "success"), ("data", response_data)])
  | .pyError m => .httpError 500 ("An unexpected error occurred: " ++ m)

/-- Field lookup on a JSON object (specification-side helper for stating
path existence; not part of the translated program). -/
def jGet : Json → String → Option Json
  | .obj fields, k => fields.lookup k
  | _, _ => none

/-- Head of a JSON array (specification-side helper). -/
def jHead : Json → Option Json
  | .arr (x :: _) => some x
  | _ => none

/-- Specification-side walk of the path outputs[0].outputs[0].results.message.text,
used to state when "every step along the path exists". -/
def specPath (body : Json) : Option Json :=
  (jGet body "outputs").bind fun outs =>
  (jHead outs).bind fun elem0 =>
  (jGet elem0 "outputs").bind fun outs2 =>
  (jHead outs2).bind fun elem1 =>
  (jGet elem1 "results").bind fun results =>
  (jGet results "message").bind fun message =>
  jGet message "text"

/-- max_retries (line 74). -/
def max_retries : Nat := 2

/-- retry_delay in seconds (line 75). -/
def retry_delay : Nat := 30

/-- Outbound request timeout in seconds (line 85). -/
def request_timeout : Nat := 180

/-- Timeout of the preflight health GET in seconds (lines 221 and 264). -/
def health_timeout : Nat := 5

/-- The static TWEAKS mapping (lines 34-45). -/
def TWEAKS : Json := .obj
  [("Agent-dlR1n", .obj [("max_iterations", .num 1), ("max_execution_time", .num 60)]),
   ("ChatInput-cnDzP", .obj []),
   ("ChatOutput-Ffc1R", .obj []),
   ("AstraDBToolComponent-OkQEv", .obj [("limit_results", .num 1), ("max_tokens", .num 1000)])]

/-- The upstream payload built from the inbound message (lines 67-72). -/
def payload (message : String) : Json := .obj
  [("input_value", .str message),
   ("output_type", .str "chat"),
   ("input_type", .str "chat"),
   ("tweaks", TWEAKS)]

/-- Token cleanup and Authorization header construction (lines 57-59):
strip surrounding whitespace, then prepend "Bearer " unless already
present. -/
def auth_header (application_token : String) : String :=
  let token := pyStrip application_token
  if pyStartswith token "Bearer " then token else "Bearer " ++ token

/-- The one log line derived from the credential (line 82): a fixed text
plus the first fifteen characters of the Authorization value. -/
def authLogLine (application_token : String) : String :=
  "Authorization header starts with: " ++ pySlice15 (auth_header application_token) ++ "..."

/-- The observable outcome of one outbound POST attempt: an HTTP response
with status code, body text and the result of response.json() (none when
the body is not valid JSON), a client-side timeout, or a connection-level
RequestException carrying str(e). -/
inductive UpstreamEvent where
  | response (status : Nat) (text : String) (body : Option Json)
  | timeout
  | connError (msg : String)

/-- What the Invoker stage yields once the loop stops: the parsed 200
body handed to the Unwrapper, a raised HTTPException, or the implicit
None return of a fallen-through while loop (unreachable from the
initial state). -/
inductive InvokeResult where
  | parsed (body : Json)
  | httpError (status : Nat) (detail : String)
  | noneReturned

/-- str(e) of an HTTPException, as interpolated by the generic handler of
lines 193-198 (starlette formats it as "status: detail"). -/
def httpExcStr (status : Nat) (detail : String) : String :=
  toString status ++ ": " ++ detail

/-- Detail of the HTTPException built on lines 106-113 for a 504 status
after exhausted retries. -/
def latency_504_detail : String :=
  "The Langflow API is experiencing high latency and timed out after " ++
  toString (max_retries + 1) ++
  " attempts. This might be due to a complex query or high system load. Please try again with a simpler query or try later."

/-- Detail of the HTTPException raised on lines 172-180 after a
client-side timeout on the last attempt. -/
def client_timeout_detail : String :=
  "Request timed out after 180 seconds and 3 retry attempts. The Langflow API is taking too long to respond. This might be due to a complex query or high system load. Please try again with a simpler query or try later."

/-- Detail of the HTTPException(413) built on lines 125-135.  Dead in the
observable behavior: the raise sits inside the try of line 117 whose bare
except on line 138 catches it. -/
def oversized_413_detail : String :=
  "The query is generating too much data. Please try to:\n1. Ask about a more specific aspect of the part\n2. Break your question into smaller parts\nFor example, instead of asking for all information, try asking specifically about the name, description, or a specific attribute of the part."

/-- Detail of the HTTPException raised on lines 189-192 when a 200 body
is not valid JSON. -/
def invalid_response_detail : String :=
  "Invalid response received from Langflow API"

/-- The context-length test of lines 121-123: the parsed error body is a
dict with a `detail` key whose str() contains the (case-sensitive)
substring "maximum context length". -/
def contextLengthHit (error_detail : Json) : Bool :=
  match error_detail with
  | .obj fields =>
    match fields.lookup "detail" with
    | some d => strContains (pyStr d) "maximum context length"
    | none => false
  | _ => false

/-- One iteration of the while loop of lines 78-200 for the attempt with
the given index: `none` means sleep retry_delay seconds and retry,
`some r` means the loop ends with result r.

Control-flow notes, traced from the source:
  - the HTTPException(413) of line 125 is raised inside the try of line
    117, whose bare except (line 138) catches every exception, so the
    non-200 branch always falls through to the passthrough
    HTTPException of lines 142-145;
  - every HTTPException raised inside the try of line 79 (lines 106 and
    142) is itself caught by `except Exception` (line 193) and replaced
    by HTTPException(500, "An unexpected error occurred: " + str(e));
  - the raises inside the except handlers of lines 165-198 propagate. -/
def attemptStep (ev : UpstreamEvent) (attempt : Nat) : Option InvokeResult :=
  match ev with
  | .response status text body =>
    if status = 504 then
      if attempt < max_retries then none
      else some (.httpError 500
        ("An unexpected error occurred: " ++ httpExcStr 504 latency_504_detail))
    else if status ≠ 200 then
      let error_msg := "Langflow API returned status " ++ toString status
      let full_msg :=
        match body with
        | none => error_msg ++ ": " ++ text
        | some error_detail =>
          if contextLengthHit error_detail then error_msg ++ ": " ++ text
          else error_msg ++ ": " ++ jsonDumps error_detail
      some (.httpError 500 ("An unexpected error occurred: " ++ httpExcStr status full_msg))
    else
      match body with
      | some response_data => some (.parsed response_data)
      | none => some (.httpError 502 invalid_response_detail)
  | .timeout =>
    if attempt < max_retries then none
    else some (.httpError 504 client_timeout_detail)
  | .connError msg =>
    some (.httpError 502 ("Failed to communicate with Langflow API: " ++ msg))

/-- Trace of the Invoker: its result, the number of outbound POSTs
issued, and the list of sleep delays taken between attempts. -/
structure InvokeTrace where
  result : InvokeResult
  attempts : Nat
  sleeps : List Nat

/-- The while loop of lines 78-200.  fuel is the number of iterations the
condition `attempt <= max_retries` still allows; exhausting it models
falling out of the loop (implicit return None). -/
def callLoop (events : Nat → UpstreamEvent) : Nat → Nat → InvokeTrace
  | _, 0 => ⟨.noneReturned, 0, []⟩
  | attempt, fuel + 1 =>
    match attemptStep (events attempt) attempt with
    | some r => ⟨r, 1, []⟩
    | none =>
      let t := callLoop events (attempt + 1) fuel
      ⟨t.result, t.attempts + 1, retry_delay :: t.sleeps⟩

/-- The Invoker: run the loop from attempt 0. -/
def invoke (events : Nat → UpstreamEvent) : InvokeTrace :=
  callLoop events 0 (max_retries + 1)

/-- Trace of a whole call_langflow_api invocation. -/
structure CallTrace where
  result : CallResult
  attempts : Nat
  sleeps : List Nat

/-- call_langflow_api (lines 50-200): the Invoker followed, on a parsed
200 body, by the Unwrapper. -/
def call_langflow_api (events : Nat → UpstreamEvent) : CallTrace :=
  let t := invoke events
  ⟨(match t.result with
    | .parsed response_data => unwrapResult response_data
    | .httpError s d => .httpError s d
    | .noneReturned => .returned .null),
   t.attempts, t.sleeps⟩

/-- `if not application_token` (line 254) over os.getenv: true when the
variable is absent or set to the empty string. -/
def envTokenMissing : Option String → Bool
  | none => true
  | some s => s == ""

/-- Outcome of the preflight requests.get(BASE_API_URL + "/health",
timeout=5) of lines 263-264: a response with some status, or a raised
RequestException carrying str(e). -/
inductive HealthOutcome where
  | responded (status : Nat)
  | failed (msg : String)

/-- Trace of a POST /query handling in src/main.py. -/
structure QueryTrace where
  healthGet : Bool
  sentPayloads : List Json
  sleeps : List Nat
  result : CallResult

/-- Detail of the HTTPException of lines 256-259. -/
def token_missing_detail : String := "APPLICATION_TOKEN is not configured on the server"

/-- The POST /query handler of src/main.py lines 244-285: token check,
preflight health GET, then call_langflow_api.  Each POST issued by the
loop carries payload(message). -/
def query (env : Option String) (health : HealthOutcome)
    (events : Nat → UpstreamEvent) (message : String) : QueryTrace :=
  if envTokenMissing env then
    ⟨false, [], [], .httpError 500 token_missing_detail⟩
  else
    match health with
    | .failed m =>
      ⟨true, [], [],
        .httpError 502 ("Cannot establish connection to Langflow API. Please try again later. Error: " ++ m)⟩
    | .responded _ =>
      let t := call_langflow_api events
      ⟨true, List.replicate t.attempts (payload message), t.sleeps, t.result⟩

/-- Detail used for a framework-side validation rejection. -/
def validation_error_detail : String := "Field required"

/-- Models the FastAPI/pydantic validation induced by
`class QueryRequest(BaseModel): message: str` (lines 47-48): a JSON
object whose `message` field is a string passes (the empty string
included); a missing or non-string field is rejected by the framework
with HTTP 422 before the handler runs. -/
def validateQueryBody (body : Json) : Except Nat String :=
  match body with
  | .obj fields =>
    match fields.lookup "message" with
    | some (.str s) => .ok s
    | some _ => .error 422
    | none => .error 422
  | _ => .error 422

/-- The inbound pipeline: framework validation, then the handler. -/
def handleQuery (env : Option String) (health : HealthOutcome)
    (events : Nat → UpstreamEvent) (body : Json) : QueryTrace :=
  match validateQueryBody body with
  | .error s => ⟨false, [], [], .httpError s validation_error_detail⟩
  | .ok message => query env health events message

/-- Authorization header of the src/langflow-api/main.py variant (line
25): f-string interpolation of os.getenv, which renders an absent
variable as the text None. -/
def la_auth_header : Option String → String
  | some t => "Bearer " ++ t
  | none => "Bearer None"

/-- Payload of the variant (lines 28-32): no tweaks. -/
def la_payload (message : String) : Json := .obj
  [("input_value", .str message),
   ("output_type", .str "chat"),
   ("input_type", .str "chat")]

/-- Trace of the variant handler: the POST it issues (always exactly one)
and the JSON it returns. -/
structure QueryAgentTrace where
  posted : Bool
  auth : String
  sent : Json
  result : Json

/-- query_agent of src/langflow-api/main.py lines 21-39: always POSTs,
returns response.json() or the fixed error dict when parsing fails. -/
def query_agent (env : Option String) (message : String)
    (respBody : Option Json) : QueryAgentTrace :=
  ⟨true, la_auth_header env, la_payload message,
   match respBody with
   | some j => j
   | none => .obj [("error", .str "Failed to parse Langflow response")]⟩

theorem string_mk_data (s : String) : String.mk s.data = s := by cases s; rfl

theorem string_data_append (a b : String) : (a ++ b).data = a.data ++ b.data := by
  cases a; cases b; rfl

theorem listIsPrefix_append_self (l r : List Char) : listIsPrefix l (l ++ r) = true := by
  induction l with
  | nil => rfl
  | cons a as ih => simp [listIsPrefix, ih]

theorem lookup_isEmpty_false {α β : Type} [BEq α] {fs : List (α × β)} {k : α} {v : β}
    (h : fs.lookup k = some v) : fs.isEmpty = false := by
  cases fs with
  | nil => simp [List.lookup] at h
  | cons p rest => rfl

theorem jGet_some {j : Json} {k : String} {v : Json} (h : jGet j k = some v) :
    ∃ fs, j = .obj fs ∧ fs.lookup k = some v := by
  cases j with
  | obj fs => exact ⟨fs, rfl, h⟩
  | null => simp [jGet] at h
  | bool b => simp [jGet] at h
  | num n => simp [jGet] at h
  | str s => simp [jGet] at h
  | arr elems => simp [jGet] at h

theorem jHead_some {j e : Json} (h : jHead j = some e) : ∃ t, j = .arr (e :: t) := by
  cases j with
  | arr elems =>
    cases elems with
    | nil => simp [jHead] at h
    | cons x xs =>
      have hx : x = e := by simpa [jHead] using h
      exact ⟨xs, by rw [hx]⟩
  | null => simp [jHead] at h
  | bool b => simp [jHead] at h
  | num n => simp [jHead] at h
  | str s => simp [jHead] at h
  | obj fs => simp [jHead] at h

theorem callLoop_attempts_pos (events : Nat → UpstreamEvent) (attempt fuel : Nat) :
    1 ≤ (callLoop events attempt (fuel + 1)).attempts := by
  cases h : attemptStep (events attempt) attempt with
  | some r => simp [callLoop, h]
  | none =>
    simp only [callLoop, h]
    omega

/-- The upstream error body of the C1 scenario: a non-504, non-200 status
with a JSON body whose detail mentions the context-length limit. -/
def ctx_body : Json := .obj [("detail", .str "This model maximum context length is 8192 tokens")]

/-- response.text of that body (json.dumps of ctx_body). -/
def ctx_text : String := "\x7b\"detail\": \"This model maximum context length is 8192 tokens\"\x7d"

/-- Upstream behavior for the C1 scenario: every attempt yields status
400 with the context-length error body. -/
def ctx_events : Nat → UpstreamEvent := fun _ => .response 400 ctx_text (some ctx_body)

/-- Claim C1 (code bug): the claim says an upstream body whose detail
mentions "maximum context length" yields HTTP 413, regardless of the
upstream status.  The code builds that HTTPException(413) on line 125,
but it is raised inside the try of line 117 and the bare except of line
138 catches it; the passthrough HTTPException of line 142 is then itself
caught by the generic handler of line 193 and re-wrapped as HTTP 500.
On the concrete input the context-length test fires, yet the pipeline
returns 500 with the wrapped passthrough message, not 413. -/
theorem C1_code_bug :
    contextLengthHit ctx_body = true
    ∧ (call_langflow_api ctx_events).result =
        .httpError 500
          ("An unexpected error occurred: " ++
            httpExcStr 400 ("Langflow API returned status 400: " ++ ctx_text))
    ∧ (call_langflow_api ctx_events).attempts = 1 :=
  ⟨rfl, rfl, rfl⟩

/-- An upstream envelope of the full nested shape with text "hello". -/
def hello_env : Json := .obj
  [("outputs", .arr
    [.obj [("outputs", .arr
      [.obj [("results", .obj
        [("message", .obj [("text", .str "hello")])])]])]])]

/-- Claim C2, counterexample: on the full nested envelope with text
"hello" the code returns the message under the key `data`, and the
result carries no `message` field at all, contradicting the claimed
shape with a `message` field equal to the string. -/
theorem C2_counterexample :
    unwrapResult hello_env = .returned (.obj [("status", .str "success"), ("data", .str "hello")])
    ∧ jGet (.obj [("status", Json.str "success"), ("data", Json.str "hello")]) "message" = none :=
  ⟨rfl, rfl⟩

/-- Claim C2 as amended: whenever every step of the path
outputs[0].outputs[0].results.message.text exists and the terminal value
is a non-empty string s, the Unwrapper returns status "success" with s
under the `data` field (not a `message` field). -/
theorem C2_corrected (body : Json) (s : String)
    (hpath : specPath body = some (.str s)) (hne : s ≠ "") :
    unwrapResult body = .returned (.obj [("status", .str "success"), ("data", .str s)]) := by
  simp only [specPath, Option.bind_eq_some] at hpath
  obtain ⟨outs, h1, elem0, h2, outs2, h3, elem1, h4, results, h5, message, h6, h7⟩ := hpath
  obtain ⟨fs0, rfl, hl0⟩ := jGet_some h1
  obtain ⟨t0, rfl⟩ := jHead_some h2
  obtain ⟨fs1, rfl, hl1⟩ := jGet_some h3
  obtain ⟨t1, rfl⟩ := jHead_some h4
  obtain ⟨fs2, rfl, hl2⟩ := jGet_some h5
  obtain ⟨fs3, rfl, hl3⟩ := jGet_some h6
  obtain ⟨fs4, rfl, hl4⟩ := jGet_some h7
  have e3 : fs3.isEmpty = false := lookup_isEmpty_false hl3
  have e4 : fs4.isEmpty = false := lookup_isEmpty_false hl4
  have hsne : (s != "") = true := bne_iff_ne.mpr hne
  simp [unwrapResult, extractMessage, pyGet, pyLen, pyIndex0, truthy,
        hl0, hl1, hl2, hl3, hl4, e3, e4, hsne]

/-- Claim C2, witness: the amended statement evaluated on the concrete
hello envelope. -/
theorem C2_witness :
    unwrapResult hello_env = .returned (.obj [("status", .str "success"), ("data", .str "hello")]) :=
  C2_corrected hello_env "hello" rfl (by decide)

/-- An envelope in which outputs[0] is a string instead of a dict. -/
def rd_bad : Json := .obj [("outputs", .arr [.str "hi"])]

/-- Claim C3, counterexample: on an envelope where a step of the path is
not the expected shape (outputs[0] is a string), the path does not exist,
yet the Unwrapper does not return the fallback: the `.get` call on the
string raises AttributeError and the pipeline fails with HTTP 500. -/
theorem C3_counterexample :
    specPath rd_bad = none
    ∧ unwrapResult rd_bad = .httpError 500 ("An unexpected error occurred: " ++ noAttrGet "str") :=
  ⟨rfl, rfl⟩

theorem truthy_arr (elems : List Json) : truthy (.arr elems) = !elems.isEmpty := rfl

theorem truthy_obj (fields : List (String × Json)) : truthy (.obj fields) = !fields.isEmpty := rfl

/-- Claim C3 as amended: whenever a consulted dict lookup along the
guard chain yields a missing or falsy value - the top-level `outputs`
lookup, or the nested `outputs`, `results`, `message` or `text` lookup,
each consulted once the preceding steps produced the shapes the code
dereferences - the Unwrapper returns status "success" with the full raw
envelope under `data` (the fallback of line 163) without raising; in
particular an envelope missing the `outputs` key takes this branch.  A
truthy terminal value, string or not, is returned under `data` itself
(line 160), not the raw envelope. -/
theorem C3_corrected :
    (∀ fs, truthy ((fs.lookup "outputs").getD .null) = false →
      unwrapResult (.obj fs) = .returned (.obj [("status", .str "success"), ("data", .obj fs)]))
    ∧ (∀ fs t0 fs1, fs.lookup "outputs" = some (.arr (.obj fs1 :: t0)) →
        truthy ((fs1.lookup "outputs").getD .null) = false →
        unwrapResult (.obj fs) = .returned (.obj [("status", .str "success"), ("data", .obj fs)]))
    ∧ (∀ fs t0 fs1 t1 fs2, fs.lookup "outputs" = some (.arr (.obj fs1 :: t0)) →
        fs1.lookup "outputs" = some (.arr (.obj fs2 :: t1)) →
        truthy ((fs2.lookup "results").getD .null) = false →
        unwrapResult (.obj fs) = .returned (.obj [("status", .str "success"), ("data", .obj fs)]))
    ∧ (∀ fs t0 fs1 t1 fs2 fs3, fs.lookup "outputs" = some (.arr (.obj fs1 :: t0)) →
        fs1.lookup "outputs" = some (.arr (.obj fs2 :: t1)) →
        fs2.lookup "results" = some (.obj fs3) → fs3.isEmpty = false →
        truthy ((fs3.lookup "message").getD .null) = false →
        unwrapResult (.obj fs) = .returned (.obj [("status", .str "success"), ("data", .obj fs)]))
    ∧ (∀ fs t0 fs1 t1 fs2 fs3 fs4, fs.lookup "outputs" = some (.arr (.obj fs1 :: t0)) →
        fs1.lookup "outputs" = some (.arr (.obj fs2 :: t1)) →
        fs2.lookup "results" = some (.obj fs3) → fs3.isEmpty = false →
        fs3.lookup "message" = some (.obj fs4) → fs4.isEmpty = false →
        truthy ((fs4.lookup "text").getD .null) = false →
        unwrapResult (.obj fs) = .returned (.obj [("status", .str "success"), ("data", .obj fs)]))
    ∧ (∀ body v, specPath body = some v → truthy v = true →
        unwrapResult body = .returned (.obj [("status", .str "success"), ("data", v)])) := by
  refine ⟨fun fs h => ?_, fun fs t0 fs1 hl1 hf => ?_, fun fs t0 fs1 t1 fs2 hl1 hl2 hf => ?_,
          fun fs t0 fs1 t1 fs2 fs3 hl1 hl2 hl3 he3 hf => ?_,
          fun fs t0 fs1 t1 fs2 fs3 fs4 hl1 hl2 hl3 he3 hl4 he4 hf => ?_,
          fun body v hpath hv => ?_⟩
  · simp [unwrapResult, extractMessage, pyGet, h]
  · simp [unwrapResult, extractMessage, pyGet, pyLen, pyIndex0, truthy_arr, hl1, hf]
  · simp [unwrapResult, extractMessage, pyGet, pyLen, pyIndex0, truthy_arr, hl1, hl2, hf]
  · simp [unwrapResult, extractMessage, pyGet, pyLen, pyIndex0, truthy_arr, truthy_obj,
          hl1, hl2, hl3, he3, hf]
  · simp [unwrapResult, extractMessage, pyGet, pyLen, pyIndex0, truthy_arr, truthy_obj,
          hl1, hl2, hl3, he3, hl4, he4, hf]
  · simp only [specPath, Option.bind_eq_some] at hpath
    obtain ⟨outs, h1, elem0, h2, outs2, h3, elem1, h4, results, h5, message, h6, h7⟩ := hpath
    obtain ⟨gs0, rfl, gl0⟩ := jGet_some h1
    obtain ⟨u0, rfl⟩ := jHead_some h2
    obtain ⟨gs1, rfl, gl1⟩ := jGet_some h3
    obtain ⟨u1, rfl⟩ := jHead_some h4
    obtain ⟨gs2, rfl, gl2⟩ := jGet_some h5
    obtain ⟨gs3, rfl, gl3⟩ := jGet_some h6
    obtain ⟨gs4, rfl, gl4⟩ := jGet_some h7
    have e3 : gs3.isEmpty = false := lookup_isEmpty_false gl3
    have e4 : gs4.isEmpty = false := lookup_isEmpty_false gl4
    simp [unwrapResult, extractMessage, pyGet, pyLen, pyIndex0, truthy_arr, truthy_obj,
          gl0, gl1, gl2, gl3, gl4, e3, e4, hv]

/-- An envelope of the full nested shape whose terminal text value is
the number 7 rather than a string. -/
def num_env : Json := .obj
  [("outputs", .arr
    [.obj [("outputs", .arr
      [.obj [("results", .obj
        [("message", .obj [("text", .num 7)])])]])]])]

/-- Claim C3, witness: an envelope whose nested `outputs` value is null
falls back to returning the raw body, and an envelope whose terminal
text value is the truthy number 7 returns that number under `data`,
not the raw envelope. -/
theorem C3_witness :
    unwrapResult (.obj [("outputs", .arr [.obj [("outputs", .null)]])]) =
      .returned (.obj [("status", .str "success"),
                       ("data", .obj [("outputs", .arr [.obj [("outputs", .null)]])])])
    ∧ unwrapResult num_env =
      .returned (.obj [("status", .str "success"), ("data", .num 7)]) :=
  ⟨C3_corrected.2.1 [("outputs", .arr [.obj [("outputs", .null)]])] [] [("outputs", .null)]
     (by rfl) (by rfl),
   C3_corrected.2.2.2.2.2 num_env (.num 7) (by rfl) (by rfl)⟩

/-- Upstream behavior: HTTP 504 on every attempt. -/
def all504_events : Nat → UpstreamEvent := fun _ => .response 504 "upstream gateway timeout" none

/-- Upstream behavior: client-side timeout on every attempt. -/
def all_timeout_events : Nat → UpstreamEvent := fun _ => .timeout

/-- Claim C4 (code bug): with HTTP 504 on every attempt the Invoker does
perform exactly max_retries + 1 = 3 attempts with a fixed 30-second
delay between them, but the final HTTPException(504) of lines 106-113 is
raised inside the try of line 79 and caught by the generic
`except Exception` handler of line 193, so the pipeline ends with HTTP
500, not 504.  With a client-side timeout on every attempt (the raise of
line 172 sits inside an except handler and propagates) the result is the
claimed 504. -/
theorem C4_code_bug :
    (call_langflow_api all504_events).attempts = max_retries + 1
    ∧ (call_langflow_api all504_events).sleeps = List.replicate max_retries retry_delay
    ∧ (call_langflow_api all504_events).result =
        .httpError 500 ("An unexpected error occurred: " ++ httpExcStr 504 latency_504_detail)
    ∧ (call_langflow_api all_timeout_events).attempts = max_retries + 1
    ∧ (call_langflow_api all_timeout_events).sleeps = List.replicate max_retries retry_delay
    ∧ (call_langflow_api all_timeout_events).result = .httpError 504 client_timeout_detail
    ∧ retry_delay = 30 :=
  ⟨rfl, rfl, rfl, rfl, rfl, rfl, rfl⟩

/-- A request body whose message is the empty string. -/
def empty_msg_body : Json := .obj [("message", .str "")]

/-- Upstream behavior: one 200 response with an empty JSON object body. -/
def ok_events : Nat → UpstreamEvent := fun _ => .response 200 "\x7b\x7d" (some (.obj []))

/-- Claim C5, counterexample: a request with an empty message is not
rejected with 400; validation passes, the outbound call is attempted,
and the payload sent upstream carries input_value = "". -/
theorem C5_counterexample :
    handleQuery (some "tok") (.responded 200) ok_events empty_msg_body =
      ⟨true, [payload ""], [], .returned (.obj [("status", .str "success"), ("data", .obj [])])⟩
    ∧ jGet (payload "") "input_value" = some (.str "") :=
  ⟨rfl, rfl⟩

/-- Claim C5 as amended: a missing `message` field is rejected by the
framework validation (HTTP 422, not 400) before any outbound call, but
an empty message passes validation and the upstream call proceeds, each
POST carrying a payload whose input_value is the empty string. -/
theorem C5_corrected (fs : List (String × Json)) (env : Option String) (st : Nat)
    (events : Nat → UpstreamEvent) (htok : envTokenMissing env = false) :
    (fs.lookup "message" = none →
      handleQuery env (.responded st) events (.obj fs) =
        ⟨false, [], [], .httpError 422 validation_error_detail⟩)
    ∧ (handleQuery env (.responded st) events (.obj (("message", Json.str "") :: fs))).sentPayloads =
        List.replicate (call_langflow_api events).attempts (payload "")
    ∧ 1 ≤ (call_langflow_api events).attempts
    ∧ jGet (payload "") "input_value" = some (.str "") := by
  refine ⟨fun hm => ?_, ?_, ?_, rfl⟩
  · simp [handleQuery, validateQueryBody, hm]
  · simp [handleQuery, validateQueryBody, List.lookup, query, htok]
  · exact callLoop_attempts_pos events 0 2

/-- Claim C5, witness: the amended statement at a concrete request whose
body lacks the message field. -/
theorem C5_witness :
    handleQuery (some "tok") (.responded 200) ok_events (.obj [("other", .num 1)]) =
      ⟨false, [], [], .httpError 422 validation_error_detail⟩ :=
  (C5_corrected [("other", .num 1)] (some "tok") 200 ok_events (by rfl)).1 (by rfl)

/-- Claim C6, counterexample: for the token "abc" the logged line of line
82 contains the full token as a substring, because the fifteen-character
prefix of the Authorization value already covers "Bearer abc" whole. -/
theorem C6_counterexample :
    strIn ("abc".data) ((authLogLine "abc").data) = true := rfl

/-- Claim C6 as amended: the credential-derived log line reveals at most
the first fifteen characters of the Authorization value: it is a
function of that fixed-length prefix alone, so two tokens agreeing on
that prefix produce identical log lines. -/
theorem C6_corrected (t1 t2 : String)
    (h : pySlice15 (auth_header t1) = pySlice15 (auth_header t2)) :
    authLogLine t1 = authLogLine t2 := by
  unfold authLogLine
  rw [h]

/-- Claim C6, witness: two distinct long tokens agreeing on the first
fifteen characters of the Authorization value log identically. -/
theorem C6_witness :
    authLogLine "secret-token-123456" = authLogLine "secret-token-999999" :=
  C6_corrected "secret-token-123456" "secret-token-999999" (by rfl)

/-- Upstream behavior for the C7 witness: a 200 response with a JSON body. -/
def c7_ok_events : Nat → UpstreamEvent := fun _ => .response 200 "\x7b\x7d" (some (.obj []))

/-- Upstream behavior for the C7 witness: a 200 response whose body is
not valid JSON. -/
def c7_bad_events : Nat → UpstreamEvent := fun _ => .response 200 "not json" none

/-- Claim C7 (confirmed): on an HTTP 200 first response with a valid JSON
body the Invoker produces the parsed body in a single attempt; when the
200 body is not valid JSON it produces HTTPException 502 with the
invalid-upstream-response message of lines 189-192. -/
theorem C7_confirmed (events : Nat → UpstreamEvent) (text : String) (j : Json) :
    (events 0 = .response 200 text (some j) →
      (invoke events).result = .parsed j ∧ (invoke events).attempts = 1)
    ∧ (events 0 = .response 200 text none →
      (invoke events).result = .httpError 502 invalid_response_detail
      ∧ (invoke events).attempts = 1) := by
  constructor <;> intro h <;> simp [invoke, max_retries, callLoop, attemptStep, h]

/-- Claim C7, witness: both branches of the confirmed statement evaluated
on concrete upstream behaviors. -/
theorem C7_witness :
    ((invoke c7_ok_events).result = .parsed (.obj []) ∧ (invoke c7_ok_events).attempts = 1)
    ∧ ((invoke c7_bad_events).result = .httpError 502 invalid_response_detail
       ∧ (invoke c7_bad_events).attempts = 1) :=
  ⟨(C7_confirmed c7_ok_events "\x7b\x7d" (.obj [])).1 rfl,
   (C7_confirmed c7_bad_events "not json" (.obj [])).2 rfl⟩

/-- Upstream behavior used to instantiate the C8 statements. -/
def c8_events : Nat → UpstreamEvent := fun _ => .timeout

/-- Claim C8, counterexample: in the src/langflow-api/main.py variant a
request arriving while the token variable is absent is not answered with
HTTP 500; the handler still issues the upstream POST, with the literal
Authorization value "Bearer None", and relays the upstream body. -/
theorem C8_counterexample :
    (query_agent none "hi" (some (.obj []))).posted = true
    ∧ (query_agent none "hi" (some (.obj []))).auth = "Bearer None"
    ∧ (query_agent none "hi" (some (.obj []))).result = .obj [] :=
  ⟨rfl, rfl, rfl⟩

/-- Claim C8 as amended: in src/main.py an absent (or empty) token makes
POST /query return HTTP 500 with the not-configured message before the
preflight GET and before any workflow POST; the src/langflow-api variant
has no such check: it always posts, and with the variable absent its
Authorization header is the literal "Bearer None". -/
theorem C8_corrected :
    (∀ env health events message, envTokenMissing env = true →
      query env health events message = ⟨false, [], [], .httpError 500 token_missing_detail⟩)
    ∧ (∀ env message r, (query_agent env message r).posted = true)
    ∧ (∀ message r, (query_agent none message r).auth = "Bearer None") :=
  ⟨fun env health events message h => by simp [query, h],
   fun _ _ _ => rfl, fun _ _ => rfl⟩

/-- Claim C8, witness: the amended statement at a concrete request with
the token variable absent. -/
theorem C8_witness :
    query none (.responded 200) c8_events "hi" =
      ⟨false, [], [], .httpError 500 token_missing_detail⟩ :=
  C8_corrected.1 none (.responded 200) c8_events "hi" rfl

/-- Claim C9, counterexample: for the supplied token "Bearer Bearer x"
the resulting header starts with two "Bearer " prefixes, not exactly
one: after dropping the first prefix the remainder still starts with
"Bearer ". -/
theorem C9_counterexample :
    pyStartswith (auth_header "Bearer Bearer x") "Bearer " = true
    ∧ pyStartswith (String.mk ((auth_header "Bearer Bearer x").data.drop 7)) "Bearer " = true :=
  ⟨rfl, rfl⟩

/-- Claim C9 as amended: the header value always starts with "Bearer ";
surrounding whitespace is stripped first; when the stripped token
already starts with "Bearer " it is used unchanged (so repeated prefixes
in the input are preserved); otherwise exactly one "Bearer " is
prepended and the remainder after it does not start with "Bearer ". -/
theorem C9_corrected (application_token : String) :
    pyStartswith (auth_header application_token) "Bearer " = true
    ∧ (pyStartswith (pyStrip application_token) "Bearer " = true →
        auth_header application_token = pyStrip application_token)
    ∧ (pyStartswith (pyStrip application_token) "Bearer " = false →
        (auth_header application_token).data = "Bearer ".data ++ (pyStrip application_token).data
        ∧ pyStartswith (String.mk ((auth_header application_token).data.drop 7)) "Bearer " = false) := by
  cases h : pyStartswith (pyStrip application_token) "Bearer " with
  | true =>
    refine ⟨?_, fun _ => ?_, fun hc => by simp [h] at hc⟩ <;> simp [auth_header, h]
  | false =>
    have hd : (auth_header application_token).data =
        "Bearer ".data ++ (pyStrip application_token).data := by
      simp [auth_header, h, string_data_append]
    refine ⟨?_, fun hc => by simp [h] at hc, fun _ => ⟨hd, ?_⟩⟩
    · show listIsPrefix "Bearer ".data (auth_header application_token).data = true
      rw [hd]
      exact listIsPrefix_append_self _ _
    · rw [hd]
      have h7 : ("Bearer ".data).length = 7 := rfl
      rw [← h7, List.drop_left, string_mk_data]
      exact h

/-- Claim C9, witness: the amended statement at a concrete token with
surrounding whitespace and no prior prefix. -/
theorem C9_witness :
    pyStartswith (auth_header "  tok  ") "Bearer " = true
    ∧ (auth_header "  tok  ").data = "Bearer ".data ++ (pyStrip "  tok  ").data :=
  ⟨(C9_corrected "  tok  ").1, ((C9_corrected "  tok  ").2.2 (by rfl)).1⟩

/-- Upstream behavior used to instantiate the C10 witness. -/
def c10_events : Nat → UpstreamEvent := fun _ => .timeout

/-- Claim C10 (confirmed): with the token configured, a preflight health
GET (issued with a 5-second timeout) that raises a connection-level
error makes the handler return HTTP 502 with the cannot-connect message
and no workflow POST is ever attempted; whenever a workflow POST is
attempted, the preflight GET was issued first. -/
theorem C10_confirmed (env : Option String) (events : Nat → UpstreamEvent)
    (message m : String) (htok : envTokenMissing env = false) :
    query env (.failed m) events message =
      ⟨true, [], [],
        .httpError 502
          ("Cannot establish connection to Langflow API. Please try again later. Error: " ++ m)⟩
    ∧ (∀ health, (query env health events message).sentPayloads ≠ [] →
        (query env health events message).healthGet = true)
    ∧ health_timeout = 5 := by
  refine ⟨by simp [query, htok], fun health hne => ?_, rfl⟩
  cases health with
  | failed m2 => simp [query, htok]
  | responded st => simp [query, htok]

/-- Claim C10, witness: the confirmed statement at a concrete failing
preflight. -/
theorem C10_witness :
    query (some "tok") (.failed "connection refused") c10_events "hi" =
      ⟨true, [], [],
        .httpError 502
          ("Cannot establish connection to Langflow API. Please try again later. Error: connection refused")⟩ :=
  (C10_confirmed (some "tok") c10_events "hi" "connection refused" (by rfl)).1
